import Mathlib

/-
Verification of the value-formatting and mapping-resolution core of the
Excel-to-Word batch field-filling utility (run_value_into_word.py).

The embedding models:
  * Python values flowing through the pipeline (`PVal`): None, NaN, strings,
    and numbers (Python floats are modelled as exact rationals);
  * Python string built-ins used by the source (str(), .strip(), .title(),
    .replace(), float() parsing) as explicit Lean functions;
  * the num2words library's English cardinal rendering;
  * the three core functions `load_mappings_from_excel`,
    `format_number_as_words`, `format_number`;
  * `main`'s two-phase apply loop as an event-trace semantics over abstract
    spreadsheet/document collaborator behaviours.
-/

/-- A Python value as it flows through the pipeline: `none` is Python `None`,
`nan` is the IEEE NaN float (what pandas presents for a blank spreadsheet
cell), `str` a Python string and `rat` a Python number (floats are modelled
as the exact rational they denote). -/
inductive PVal
| none
| nan
| str (s : String)
| rat (q : ℚ)
deriving DecidableEq

/-- Python truthiness for the modelled values: `None`, `""` and `0` are
falsy; NaN, non-empty strings and non-zero numbers are truthy. -/
def pyTruthy : PVal → Bool
| PVal.none => false
| PVal.nan => true
| PVal.str s => s ≠ ""
| PVal.rat q => q ≠ 0

/-- Smallest exponent `k ≤ 17` with `d ∣ 10^k`, if any; used to render a
rational as the finite decimal Python would print for the float. -/
def decExp (d : Nat) : Option Nat :=
  (List.range 18).find? (fun k => 10 ^ k % d == 0)

/-- Left-pad a string with zeros to length `k`. -/
def natPad (k : Nat) (s : String) : String :=
  ⟨List.replicate (k - s.length) '0'⟩ ++ s

/-- Model of Python `str()` applied to a float whose exact value is the
rational `q`: integral values print with a trailing `.0`, short terminating
decimals print exactly.  (Rationals with no short decimal expansion cannot
arise as shortest-repr floats of the values exercised here; they get a
fraction marker.) -/
def ratFloatStr (q : ℚ) : String :=
  let sgn := if q < 0 then "-" else ""
  let n := q.num.natAbs
  let d := q.den
  match decExp d with
  | some 0 => sgn ++ toString n ++ ".0"
  | some k =>
      let scaled := n * (10 ^ k / d)
      sgn ++ toString (scaled / 10 ^ k) ++ "." ++ natPad k (toString (scaled % 10 ^ k))
  | Option.none => sgn ++ toString n ++ "/" ++ toString d

/-- Model of Python `str()` on the modelled values. -/
def pyStr : PVal → String
| PVal.none => "None"
| PVal.nan => "nan"
| PVal.str s => s
| PVal.rat q => ratFloatStr q

/-- Model of Python `str.strip()`: whitespace removed from both ends. -/
def pyStrip (s : String) : String :=
  ⟨((s.data.dropWhile Char.isWhitespace).reverse.dropWhile Char.isWhitespace).reverse⟩

/-- Characters of Python `str.title()`: the first letter of each maximal
alphabetic run is uppercased, the rest lowercased. -/
def titleAux : Bool → List Char → List Char
| _, [] => []
| prevAlpha, c :: cs =>
    (if c.isAlpha then (if prevAlpha then c.toLower else c.toUpper) else c)
      :: titleAux c.isAlpha cs

/-- Model of Python `str.title()`. -/
def pyTitle (s : String) : String := ⟨titleAux false s.data⟩

/-- Fuel-indexed scanner for `str.replace`: leftmost, non-overlapping
occurrences of `pat` are replaced by `rep`.  The fuel only encodes
termination; `pyReplace` supplies enough for the whole string. -/
def replaceAux (pat rep : List Char) : Nat → List Char → List Char
| 0, s => s
| fuel + 1, s =>
    match s with
    | [] => []
    | c :: cs =>
        if pat.isPrefixOf s then rep ++ replaceAux pat rep fuel (s.drop pat.length)
        else c :: replaceAux pat rep fuel cs

/-- Model of Python `str.replace(pat, rep)` for non-empty `pat`. -/
def pyReplace (s pat rep : String) : String :=
  ⟨replaceAux pat.data rep.data (s.data.length + 1) s.data⟩

/-- Numeric value of a list of decimal digit characters. -/
def digitsVal (l : List Char) : Nat :=
  l.foldl (fun a c => a * 10 + (c.toNat - 48)) 0

/-- Optional sign at the head of a numeral. -/
def parseSign : List Char → Int × List Char
| '+' :: r => (1, r)
| '-' :: r => (-1, r)
| r => (1, r)

/-- The rational `m / 10^k`, built through `mkRat` so that it stays
kernel-computable. -/
def decRat (m : Int) (k : Nat) : ℚ := mkRat m (10 ^ k)

/-- Exponent suffix of a Python float literal (after the `e`/`E`): scales the
signed mantissa `m / 10^k` by the parsed power of ten. -/
def parseExpPart (m : Int) (k : Nat) (l : List Char) : Option ℚ :=
  let p := parseSign l
  let ed := p.2.takeWhile Char.isDigit
  if ed = [] ∨ p.2.dropWhile Char.isDigit ≠ [] then Option.none
  else if p.1 = 1 then some (decRat (m * (10 ^ digitsVal ed : Nat)) k)
  else some (decRat m (k + digitsVal ed))

/-- Model of Python `float()` on a string: optional surrounding whitespace
and sign, decimal digits with an optional point and an optional exponent.
(Underscored digit groups and the non-finite literals `inf`/`nan` are not
modelled; no claim exercises them, and in the full pipeline they lead to the
same output strings as a parse failure does.)  The value is assembled as a
signed integer mantissa over a power of ten. -/
def pyFloatOfString (s : String) : Option ℚ :=
  let l0 := (pyStrip s).data
  let p := parseSign l0
  let sgn := p.1
  let l := p.2
  let ip := l.takeWhile Char.isDigit
  let l1 := l.dropWhile Char.isDigit
  match l1 with
  | [] => if ip = [] then Option.none else some (decRat (sgn * (digitsVal ip : Int)) 0)
  | '.' :: r =>
      let fp := r.takeWhile Char.isDigit
      let r1 := r.dropWhile Char.isDigit
      if ip = [] ∧ fp = [] then Option.none
      else
        let m : Int := sgn * ((digitsVal ip * 10 ^ fp.length + digitsVal fp : Nat) : Int)
        match r1 with
        | [] => some (decRat m fp.length)
        | e :: er =>
            if e = 'e' ∨ e = 'E' then parseExpPart m fp.length er else Option.none
  | e :: er =>
      if (e = 'e' ∨ e = 'E') ∧ ip ≠ [] then
        parseExpPart (sgn * (digitsVal ip : Int)) 0 er
      else Option.none

/-- Model of Python `float(value)` as the source applies it to a raw cell
value: numbers pass through, strings are parsed, `None` raises (hence
`Option.none`).  A NaN input is mapped to `Option.none` as well: in the
source the NaN survives `float()` but makes the subsequent `int()` raise,
and both paths land in the same `except` fallback, so the observable output
is identical. -/
def pyFloat : PVal → Option ℚ
| PVal.none => Option.none
| PVal.nan => Option.none
| PVal.str s => pyFloatOfString s
| PVal.rat q => some q

/-- Model of Python `int()` truncation of a float toward zero. -/
def pytrunc (q : ℚ) : Int :=
  if 0 ≤ q then q.floor else -((-q).floor)

/-- English word for `n < 20` (the num2words base table). -/
def smallWord : Nat → String
| 0 => "zero" | 1 => "one" | 2 => "two" | 3 => "three" | 4 => "four"
| 5 => "five" | 6 => "six" | 7 => "seven" | 8 => "eight" | 9 => "nine"
| 10 => "ten" | 11 => "eleven" | 12 => "twelve" | 13 => "thirteen"
| 14 => "fourteen" | 15 => "fifteen" | 16 => "sixteen" | 17 => "seventeen"
| 18 => "eighteen" | 19 => "nineteen" | _ => ""

/-- English tens word for `2 ≤ t ≤ 9`. -/
def tensWord : Nat → String
| 2 => "twenty" | 3 => "thirty" | 4 => "forty" | 5 => "fifty"
| 6 => "sixty" | 7 => "seventy" | 8 => "eighty" | 9 => "ninety" | _ => ""

/-- Fuel-indexed worker for the num2words English cardinal rendering:
hyphenated tens ("twenty-one"), "and" before a sub-hundred remainder
("one hundred and one", "one thousand and one"), and ", " between scale
groups ("one million, two hundred and thirty-four thousand, ...").  This is
the group-splitting/merge scheme the library implements; the model is exact
for `n < 10^15`. -/
def n2wAux : Nat → Nat → String
| 0, _ => ""
| fuel + 1, n =>
    if n < 20 then smallWord n
    else if n < 100 then
      tensWord (n / 10) ++ (if n % 10 = 0 then "" else "-" ++ smallWord (n % 10))
    else if n < 1000 then
      n2wAux fuel (n / 100) ++ " hundred" ++
        (if n % 100 = 0 then "" else " and " ++ n2wAux fuel (n % 100))
    else
      let c : Nat :=
        if n < 1000000 then 1000
        else if n < 1000000000 then 1000000
        else if n < 1000000000000 then 1000000000
        else 1000000000000
      let cname :=
        if n < 1000000 then "thousand"
        else if n < 1000000000 then "million"
        else if n < 1000000000000 then "billion"
        else "trillion"
      n2wAux fuel (n / c) ++ " " ++ cname ++
        (if n % c = 0 then ""
         else if n % c < 100 then " and " ++ n2wAux fuel (n % c)
         else ", " ++ n2wAux fuel (n % c))

/-- Model of `num2words(n, to='cardinal', lang='en')` for `|n| < 10^15`. -/
def num2words (n : Int) : String :=
  if n < 0 then "minus " ++ n2wAux (n.natAbs + 1) n.natAbs
  else n2wAux (n.toNat + 1) n.toNat

/-- `format_number_as_words` from run_value_into_word.py: absent values get
the literal placeholder, coercible values are spelled as title-cased
cardinal words plus " Dollars" with the comma substitutions applied at one
million and above, and anything else falls back to the parenthesised raw
string (the bare `except`). -/
def format_number_as_words (value : PVal) : String :=
  if value = PVal.none ∨ value = PVal.str "" then "(Not Available)"
  else
    match pyFloat value with
    | Option.none => "(" ++ pyStr value ++ ")"
    | some num =>
        let words0 := pyTitle (num2words (pytrunc num)) ++ " Dollars"
        let words :=
          if 1000000 ≤ num then
            let w1 := pyReplace words0 " Thousand" ", Thousand"
            let w2 := pyReplace w1 " Million" ", Million"
            let w3 := pyReplace w2 " Billion" ", Billion"
            let w4 := pyReplace w3 ", ," ","
            pyReplace w4 "  " " "
          else words0
        "(" ++ words ++ ")"

/-- Digit grouping of a reversed digit list: a comma after every third
digit. -/
def group3 : List Char → List Char
| a :: b :: c :: d :: rest => a :: b :: c :: ',' :: group3 (d :: rest)
| l => l

/-- Thousands grouping of a natural number, e.g. `1234567 ↦ "1,234,567"`. -/
def commaGroup (n : Nat) : String :=
  ⟨(group3 (toString n).data.reverse).reverse⟩

/-- Round half to even, as CPython's float formatting does.  The fractional
part `q - ⌊q⌋ = (q.num - ⌊q⌋·q.den) / q.den` is compared with `1/2` by
cross-multiplying, so only integer arithmetic is involved. -/
def roundHalfEven (q : ℚ) : Int :=
  let f := q.floor
  let twiceFrac := 2 * (q.num - f * (q.den : Int))
  if twiceFrac < (q.den : Int) then f
  else if (q.den : Int) < twiceFrac then f + 1
  else if f % 2 = 0 then f else f + 1

/-- Model of the f-string `f"{num:,.0f}"`: round to zero decimals (half to
even) and group the digits by thousands.  (CPython's negative-zero rendering
"-0" for inputs in `(-1/2, 0)` is not modelled; no claim exercises it.) -/
def defaultCommaFmt (q : ℚ) : String :=
  let n := roundHalfEven q
  (if n < 0 then "-" else "") ++ commaGroup n.natAbs

/-- `format_number` from run_value_into_word.py, parameterised by the
behaviour `aF` of the caller-supplied Python format template
(`fmt_spec.format(num)`): `aF f q = Option.none` models the template
application raising, which the bare `except` turns into `str(value)`. -/
def format_number (aF : String → ℚ → Option String) (value : PVal)
    (fmt_spec : Option String) : String :=
  if value = PVal.none ∨ value = PVal.str "" then "None"
  else
    match pyFloat value with
    | Option.none => pyStr value
    | some num =>
        match fmt_spec with
        | some f =>
            if f = "" then defaultCommaFmt num
            else
              match aF f num with
              | some r => r
              | Option.none => pyStr value
        | Option.none => defaultCommaFmt num

/-- One mapping record `(sheet, cell, bookmark, fmt)` as the loader and the
manual `--mapping` branch produce it. -/
structure Record where
  sheet : String
  cell : String
  bookmark : String
  fmt : Option String
deriving DecidableEq

/-- One row of the mapping config table, as pandas presents it to
`load_mappings_from_excel`: each field is the Python value `row.get(col)`
returns (`PVal.nan` for a blank cell of a present column, `PVal.none` for an
absent column). -/
structure Row where
  sheetName : PVal
  cell : PVal
  bookmark : PVal
  formatting : PVal
deriving DecidableEq

/-- `str(v or '').strip()` — the coercion the loader applies to the three
identifying fields. -/
def fieldStr (v : PVal) : String :=
  pyStrip (pyStr (if pyTruthy v then v else PVal.str ""))

/-- Model of `pd.notna`: false exactly on `None` and NaN. -/
def pdNotna : PVal → Bool
| PVal.none => false
| PVal.nan => false
| _ => true

/-- `load_mappings_from_excel` from run_value_into_word.py: per row, coerce
the three identifying fields with `str(· or '').strip()`, compute the
optional format, and keep the row exactly when all three coerced fields are
non-empty. -/
def load_mappings_from_excel : List Row → List Record
| [] => []
| r :: rest =>
    let sheet := fieldStr r.sheetName
    let cell := fieldStr r.cell
    let bookmark := fieldStr r.bookmark
    let fmt : Option String :=
      if pdNotna r.formatting && pyTruthy r.formatting then
        some (pyStrip (pyStr r.formatting))
      else Option.none
    if sheet ≠ "" ∧ cell ≠ "" ∧ bookmark ≠ "" then
      ⟨sheet, cell, bookmark, fmt⟩ :: load_mappings_from_excel rest
    else load_mappings_from_excel rest

/-- The loader's acceptance condition on a row, factored out. -/
def keepsRow (r : Row) : Bool :=
  fieldStr r.sheetName ≠ "" && fieldStr r.cell ≠ "" && fieldStr r.bookmark ≠ ""

/-- The record the loader builds from an accepted row, factored out. -/
def rowRecord (r : Row) : Record :=
  ⟨fieldStr r.sheetName, fieldStr r.cell, fieldStr r.bookmark,
    if pdNotna r.formatting && pyTruthy r.formatting then
      some (pyStrip (pyStr r.formatting))
    else Option.none⟩

/-- The text content a table cell presents to a human reader, trimmed; blank
cells (absent or NaN) read as the empty string. -/
def cellText : PVal → String
| PVal.str s => pyStrip s
| PVal.rat q => pyStrip (ratFloatStr q)
| _ => ""

/-- The spec's words for the loader filter (C5): a row is retained iff its
`sheet`, `cell` and `anchor` fields are all non-empty after trimming
whitespace.  Stated from the spec, to be compared with the source's
behaviour. -/
def specRetains (r : Row) : Bool :=
  cellText r.sheetName ≠ "" && cellText r.cell ≠ "" && cellText r.bookmark ≠ ""

/-- The spec's error for a malformed manual mapping tuple; the source raises
it through `parser.error`, which terminates the run before any collaborator
is opened. -/
structure InvalidMappingError where
  tuple : List String
deriving DecidableEq

/-- The manual `--mapping` branch of `main`: each argument group must have 3
or 4 elements; the first offending group aborts with `InvalidMappingError`
(`parser.error`). -/
def parseManualMappings : List (List String) → Except InvalidMappingError (List Record)
| [] => Except.ok []
| m :: rest =>
    match m with
    | [a, b, c] =>
        match parseManualMappings rest with
        | Except.ok l => Except.ok (⟨a, b, c, Option.none⟩ :: l)
        | Except.error e => Except.error e
    | [a, b, c, d] =>
        match parseManualMappings rest with
        | Except.ok l => Except.ok (⟨a, b, c, some d⟩ :: l)
        | Except.error e => Except.error e
    | _ => Except.error ⟨m⟩

/-- Result of one `wb.Worksheets(sheet).Range(cell).Value` call: a value, or
an exception (which the source catches and downgrades to `None`). -/
inductive ReadRes
| ok (v : PVal)
| err
deriving DecidableEq

/-- Behaviour of the spreadsheet collaborator for one run: whether
`_open_excel` raises, and what each cell read does. -/
structure ExcelBe where
  openFail : Bool
  read : String → String → ReadRes

/-- Behaviour of one bookmark write in the document: the bookmark exists and
the write succeeds, the bookmark is missing (the COM access raises), or the
write raises with some message. -/
inductive WriteBe
| existsOk
| missing
| existsButFails (msg : String)
deriving DecidableEq

/-- Behaviour of the document collaborator for one run: whether `_open_word`
raises, and what each bookmark write does. -/
structure WordBe where
  openFail : Bool
  write : String → WriteBe

/-- The per-record observable outcome `main` records (its log line): a
successful write, or the single generic write-error handler. -/
inductive Outcome
| written (formatType formatted bookmark : String)
| errorWriting (bookmark msg : String)
deriving DecidableEq

/-- The bookmark a per-record outcome refers to. -/
def Outcome.bm : Outcome → String
| Outcome.written _ _ b => b
| Outcome.errorWriting b _ => b

/-- Model of the COM exception text raised when a bookmark is absent from
the document.  Its exact content is irrelevant to the theorems; only that a
write failure can raise the same text matters. -/
def comMissingMsg (bm : String) : String :=
  "The requested member of the collection does not exist: " ++ bm

/-- Events of one run of `main`'s apply phase, in order of occurrence. -/
inductive Ev
| openExcel
| excelOpenFail
| readCell (sheet cell : String)
| closeExcel
| openWord
| wordOpenFail
| outcome (o : Outcome)
| save
| closeDoc
| quitWord
deriving DecidableEq

/-- The read-phase events: one cell read per mapping, in input order. -/
def readEvents (maps : List Record) : List Ev :=
  maps.map fun r => Ev.readCell r.sheet r.cell

/-- The value the source's read loop stores for `(sheet, cell)`: the cell's
value, or `None` when the read raised. -/
def excelVal (xl : ExcelBe) (s c : String) : PVal :=
  match xl.read s c with
  | ReadRes.ok v => v
  | ReadRes.err => PVal.none

/-- The `raw_values` dict built by the read loop, as an insertion-ordered
association list. -/
def buildDict (xl : ExcelBe) (maps : List Record) : List ((String × String) × PVal) :=
  maps.map fun r => ((r.sheet, r.cell), excelVal xl r.sheet r.cell)

/-- Python dict lookup over the association list: a later insertion for the
same key overwrites an earlier one. -/
def dictGet (d : List ((String × String) × PVal)) (k : String × String) : Option PVal :=
  d.foldl (fun acc p => if p.1 = k then some p.2 else acc) Option.none

/-- The formatting-mode branch of `main`'s write loop: words mode when the
format specifier is `None` or empty, numeric mode otherwise; returns the
`format_type` label and the formatted string. -/
def formatFor (aF : String → ℚ → Option String) (raw : PVal) (fmt : Option String) :
    String × String :=
  match fmt with
  | Option.none => ("text", format_number_as_words raw)
  | some f =>
      if f = "" then ("text", format_number_as_words raw)
      else ("numeric", format_number aF raw (some f))

/-- One iteration of the write loop: fetch the raw value from the dict,
format it, attempt the bookmark write, and record the outcome; any exception
from the write is caught by the single per-record handler. -/
def applyRecord (aF : String → ℚ → Option String)
    (dict : List ((String × String) × PVal)) (wd : WordBe) (r : Record) : Outcome :=
  let raw := (dictGet dict (r.sheet, r.cell)).getD PVal.none
  let p := formatFor aF raw r.fmt
  match wd.write r.bookmark with
  | WriteBe.existsOk => Outcome.written p.1 p.2 r.bookmark
  | WriteBe.missing => Outcome.errorWriting r.bookmark (comMissingMsg r.bookmark)
  | WriteBe.existsButFails m => Outcome.errorWriting r.bookmark m

/-- The apply phase of `main` (lines 107-148) as an event trace: open Excel
(a failure is fatal), read every cell, close Excel in the `finally`, open
Word (a failure is fatal, after Excel is closed), process every record with
the per-record handler, save once, and close/quit in the `finally`. -/
def runApply (aF : String → ℚ → Option String) (maps : List Record)
    (xl : ExcelBe) (wd : WordBe) : List Ev :=
  if xl.openFail then [Ev.excelOpenFail]
  else
    Ev.openExcel :: readEvents maps ++ [Ev.closeExcel] ++
      (if wd.openFail then [Ev.wordOpenFail]
       else Ev.openWord ::
          maps.map (fun r => Ev.outcome (applyRecord aF (buildDict xl maps) wd r)) ++
          [Ev.save, Ev.closeDoc, Ev.quitWord])

/-- Projection of an event to the outcome it records, if any. -/
def evOutcome : Ev → Option Outcome
| Ev.outcome o => some o
| _ => Option.none

/-- The ordered list of per-record outcomes of a run. -/
def outcomesOf (tr : List Ev) : List Outcome :=
  tr.filterMap evOutcome

/-- Where the mappings of a run come from: the config table or the manual
`--mapping` groups (mutually exclusive in the CLI). -/
inductive MappingSource
| config (rows : List Row)
| manual (ms : List (List String))

/-- `main` end to end: load the mappings (a malformed manual tuple is fatal
before anything is opened), then run the apply phase.  Returns the event
trace and the fatal mapping error, if any. -/
def mainRun (aF : String → ℚ → Option String) (src : MappingSource)
    (xl : ExcelBe) (wd : WordBe) : List Ev × Option InvalidMappingError :=
  match src with
  | MappingSource.config rows =>
      (runApply aF (load_mappings_from_excel rows) xl wd, Option.none)
  | MappingSource.manual ms =>
      match parseManualMappings ms with
      | Except.error e => ([], some e)
      | Except.ok maps => (runApply aF maps xl wd, Option.none)

/-- Session-discipline state for the checker: whether the spreadsheet and
document sessions are open, and whether any rule has been violated. -/
structure SessState where
  xl : Bool
  wd : Bool
  ok : Bool
deriving DecidableEq

/-- Session-discipline step: reads require the spreadsheet session (and no
document session); the document session may only open once the spreadsheet
session is closed; record writes and the save require the document
session. -/
def sessStep : SessState → Ev → SessState
| ⟨x, w, ok⟩, Ev.openExcel => ⟨true, w, ok && !x && !w⟩
| ⟨x, w, ok⟩, Ev.excelOpenFail => ⟨x, w, ok && !x && !w⟩
| ⟨x, w, ok⟩, Ev.readCell _ _ => ⟨x, w, ok && x && !w⟩
| ⟨x, w, ok⟩, Ev.closeExcel => ⟨false, w, ok && x⟩
| ⟨x, w, ok⟩, Ev.openWord => ⟨x, true, ok && !x && !w⟩
| ⟨x, w, ok⟩, Ev.wordOpenFail => ⟨x, w, ok && !x && !w⟩
| ⟨x, w, ok⟩, Ev.outcome _ => ⟨x, w, ok && !x && w⟩
| ⟨x, w, ok⟩, Ev.save => ⟨x, w, ok && !x && w⟩
| ⟨x, w, ok⟩, Ev.closeDoc => ⟨x, false, ok && w⟩
| ⟨x, w, ok⟩, Ev.quitWord => ⟨x, w, ok && !x && !w⟩

/-- A trace obeys the session discipline: no rule violated and both sessions
released at the end. -/
def sessionCheck (tr : List Ev) : Bool :=
  let s := tr.foldl sessStep ⟨false, false, true⟩
  s.ok && !s.xl && !s.wd


/-- A parenthesised string is never empty. -/
lemma paren_ne_empty (s : String) : "(" ++ s ++ ")" ≠ "" := by
  intro h
  have h2 := congrArg String.length h
  rw [String.length_append, String.length_append] at h2
  have e1 : ("(" : String).length = 1 := rfl
  have e2 : (")" : String).length = 1 := rfl
  have e3 : ("" : String).length = 0 := rfl
  omega

/-- The outcome recorded for a record always refers to that record's
bookmark. -/
lemma applyRecord_bm (aF : String → ℚ → Option String)
    (dict : List ((String × String) × PVal)) (wd : WordBe) (r : Record) :
    (applyRecord aF dict wd r).bm = r.bookmark := by
  cases h : wd.write r.bookmark <;> simp [applyRecord, h, Outcome.bm]

/-- Read events record no outcomes. -/
lemma filterMap_evOutcome_readEvents (maps : List Record) :
    (readEvents maps).filterMap evOutcome = [] := by
  induction maps with
  | nil => rfl
  | cons r t ih => simp [readEvents, evOutcome]

/-- Outcome events project back to their outcomes. -/
lemma filterMap_evOutcome_outcomeMap (f : Record → Outcome) (maps : List Record) :
    (maps.map fun r => Ev.outcome (f r)).filterMap evOutcome = maps.map f := by
  induction maps with
  | nil => rfl
  | cons r t ih => simp [evOutcome, ih]

/-- Composed form of the previous lemma, as `simp` normalises
`filterMap` over `map`. -/
lemma filterMap_evOutcome_comp (f : Record → Outcome) (maps : List Record) :
    List.filterMap (evOutcome ∘ fun r => Ev.outcome (f r)) maps = maps.map f := by
  induction maps with
  | nil => rfl
  | cons r t ih => simp [Function.comp, evOutcome] at ih ⊢; exact ih

/-- `Ev.save` is not a read event. -/
lemma save_not_mem_readEvents (maps : List Record) : Ev.save ∉ readEvents maps := by
  simp [readEvents]

/-- `Ev.save` is not an outcome event. -/
lemma save_not_mem_outcomeMap (f : Record → Outcome) (maps : List Record) :
    Ev.save ∉ maps.map fun r => Ev.outcome (f r) := by
  simp

/-- On a run where both collaborators open, the outcome list is exactly one
outcome per mapping record, in input order. -/
lemma outcomes_runApply (aF : String → ℚ → Option String) (maps : List Record)
    (xl : ExcelBe) (wd : WordBe) (hx : xl.openFail = false) (hw : wd.openFail = false) :
    outcomesOf (runApply aF maps xl wd)
      = maps.map (applyRecord aF (buildDict xl maps) wd) := by
  simp [runApply, hx, hw, outcomesOf, List.filterMap_append,
    filterMap_evOutcome_readEvents, filterMap_evOutcome_outcomeMap,
    filterMap_evOutcome_comp, evOutcome]

/-- On a run where both collaborators open, the save step happens exactly
once. -/
lemma count_save_runApply (aF : String → ℚ → Option String) (maps : List Record)
    (xl : ExcelBe) (wd : WordBe) (hx : xl.openFail = false) (hw : wd.openFail = false) :
    (runApply aF maps xl wd).count Ev.save = 1 := by
  have h1 := List.count_eq_zero.mpr (save_not_mem_readEvents maps)
  have h2 := List.count_eq_zero.mpr
    (save_not_mem_outcomeMap (applyRecord aF (buildDict xl maps) wd) maps)
  simp [runApply, hx, hw, List.count_cons, List.count_append, h1, h2]

/-- Folding the session checker over the read phase keeps the spreadsheet
session open, the document session closed, and no violation. -/
lemma foldl_sessStep_readEvents (maps : List Record) :
    (readEvents maps).foldl sessStep ⟨true, false, true⟩ = ⟨true, false, true⟩ := by
  induction maps with
  | nil => rfl
  | cons r t ih => simpa [readEvents, sessStep] using ih

/-- Folding the session checker over the write phase keeps the document
session open, the spreadsheet session closed, and no violation. -/
lemma foldl_sessStep_outcomeMap (f : Record → Outcome) (maps : List Record) :
    (maps.map fun r => Ev.outcome (f r)).foldl sessStep ⟨false, true, true⟩
      = ⟨false, true, true⟩ := by
  induction maps with
  | nil => rfl
  | cons r t ih => simpa [sessStep] using ih

/-- A manual mapping list containing a tuple of bad arity makes the parser
abort with an `InvalidMappingError`. -/
lemma parseManual_error_of_bad (ms : List (List String)) (m : List String)
    (hm : m ∈ ms) (h3 : m.length ≠ 3) (h4 : m.length ≠ 4) :
    ∃ e, parseManualMappings ms = Except.error e := by
  induction ms with
  | nil => cases hm
  | cons hd tl ih =>
      rcases List.mem_cons.mp hm with h | h
      · subst h
        match m, h3, h4 with
        | [], _, _ => exact ⟨⟨[]⟩, rfl⟩
        | [a], _, _ => exact ⟨⟨[a]⟩, rfl⟩
        | [a, b], _, _ => exact ⟨⟨[a, b]⟩, rfl⟩
        | [a, b, c], h3, _ => simp at h3
        | [a, b, c, d], _, h4 => simp at h4
        | a :: b :: c :: d :: e :: t, _, _ => exact ⟨⟨a :: b :: c :: d :: e :: t⟩, rfl⟩
      · obtain ⟨e, he⟩ := ih h
        match hd with
        | [] => exact ⟨⟨[]⟩, rfl⟩
        | [a] => exact ⟨⟨[a]⟩, rfl⟩
        | [a, b] => exact ⟨⟨[a, b]⟩, rfl⟩
        | [a, b, c] => exact ⟨e, by simp [parseManualMappings, he]⟩
        | [a, b, c, d] => exact ⟨e, by simp [parseManualMappings, he]⟩
        | a :: b :: c :: d :: e2 :: t => exact ⟨⟨a :: b :: c :: d :: e2 :: t⟩, rfl⟩

/-- C1 (counterexample): on input 6800000 with no format specifier the words
formatter does NOT return "(Six Million, Eight Hundred Thousand Dollars)";
the naive substitutions insert a comma before every scale word, including
the one directly after its coefficient. -/
theorem claim_C1_counterexample :
    format_number_as_words (PVal.rat 6800000)
      = "(Six, Million, Eight Hundred, Thousand Dollars)"
    ∧ format_number_as_words (PVal.rat 6800000)
      ≠ "(Six Million, Eight Hundred Thousand Dollars)" := by
  decide

/-- C1 (amended): for the input 6800000 with no format specifier the words
formatter returns exactly "(Six, Million, Eight Hundred, Thousand Dollars)":
the substitution puts ", " before each occurrence of a scale word — also the
first one — and no double comma arises for the cleanup to collapse. -/
theorem claim_C1_amended :
    format_number_as_words (PVal.rat 6800000)
      = "(Six, Million, Eight Hundred, Thousand Dollars)" := by
  decide

/-- C2: whenever both collaborators open, every mapping record yields
exactly one outcome, in input order (the i-th outcome concerns the i-th
record's bookmark), the save event occurs exactly once, and it occurs after
every record outcome — regardless of per-record read or write failures. -/
theorem claim_C2_theorem (aF : String → ℚ → Option String) (maps : List Record)
    (xl : ExcelBe) (wd : WordBe) (hx : xl.openFail = false) (hw : wd.openFail = false) :
    (outcomesOf (runApply aF maps xl wd)).length = maps.length
    ∧ (∀ i : Nat, ((outcomesOf (runApply aF maps xl wd))[i]?).map Outcome.bm
        = (maps[i]?).map Record.bookmark)
    ∧ (runApply aF maps xl wd).count Ev.save = 1
    ∧ ∃ pre : List Ev,
        runApply aF maps xl wd = pre ++ [Ev.save, Ev.closeDoc, Ev.quitWord]
        ∧ outcomesOf pre = outcomesOf (runApply aF maps xl wd)
        ∧ pre.count Ev.save = 0 := by
  have ho := outcomes_runApply aF maps xl wd hx hw
  have h1 := List.count_eq_zero.mpr (save_not_mem_readEvents maps)
  have h2 := List.count_eq_zero.mpr
    (save_not_mem_outcomeMap (applyRecord aF (buildDict xl maps) wd) maps)
  refine ⟨?_, ?_, count_save_runApply aF maps xl wd hx hw, ?_⟩
  · rw [ho, List.length_map]
  · intro i
    rw [ho, List.getElem?_map]
    cases h : maps[i]? with
    | none => simp
    | some r => simp [applyRecord_bm]
  · refine ⟨Ev.openExcel :: readEvents maps ++ [Ev.closeExcel] ++
      Ev.openWord :: maps.map
        (fun r => Ev.outcome (applyRecord aF (buildDict xl maps) wd r)), ?_, ?_, ?_⟩
    · simp [runApply, hx, hw]
    · rw [ho]
      simp [outcomesOf, List.filterMap_append, filterMap_evOutcome_readEvents,
        filterMap_evOutcome_outcomeMap, filterMap_evOutcome_comp, evOutcome]
    · simp [List.count_cons, List.count_append, h1, h2]

/-- C2 (witness): a single-record run whose cell read fails and whose
bookmark write fails still yields one outcome and exactly one save. -/
theorem claim_C2_witness :
    (outcomesOf (runApply (fun _ _ => Option.none) [⟨"S1", "A1", "B1", Option.none⟩]
        ⟨false, fun _ _ => ReadRes.err⟩
        ⟨false, fun _ => WriteBe.existsButFails "boom"⟩)).length = 1
    ∧ (runApply (fun _ _ => Option.none) [⟨"S1", "A1", "B1", Option.none⟩]
        ⟨false, fun _ _ => ReadRes.err⟩
        ⟨false, fun _ => WriteBe.existsButFails "boom"⟩).count Ev.save = 1 := by
  have h := claim_C2_theorem (fun _ _ => Option.none) [⟨"S1", "A1", "B1", Option.none⟩]
    ⟨false, fun _ _ => ReadRes.err⟩ ⟨false, fun _ => WriteBe.existsButFails "boom"⟩ rfl rfl
  exact ⟨h.1, h.2.2.1⟩

/-- C3 (counterexample): a run on a record whose bookmark is missing records
exactly the same generic error outcome as a run where the bookmark exists
but the write raises with the same message — the code has no distinct
SkippedMissingAnchor outcome. -/
theorem claim_C3_counterexample :
    outcomesOf (runApply (fun _ _ => Option.none) [⟨"S", "A1", "B1", Option.none⟩]
        ⟨false, fun _ _ => ReadRes.ok (PVal.rat 100)⟩ ⟨false, fun _ => WriteBe.missing⟩)
      = outcomesOf (runApply (fun _ _ => Option.none) [⟨"S", "A1", "B1", Option.none⟩]
        ⟨false, fun _ _ => ReadRes.ok (PVal.rat 100)⟩
        ⟨false, fun _ => WriteBe.existsButFails (comMissingMsg "B1")⟩)
    ∧ outcomesOf (runApply (fun _ _ => Option.none) [⟨"S", "A1", "B1", Option.none⟩]
        ⟨false, fun _ _ => ReadRes.ok (PVal.rat 100)⟩ ⟨false, fun _ => WriteBe.missing⟩)
      = [Outcome.errorWriting "B1" (comMissingMsg "B1")] := by
  decide

/-- C3 (amended): a record whose destination anchor does not exist is caught
by the same per-record handler as any write failure and recorded as the
generic write-error outcome (not a distinct skip outcome and not a fatal
error); the run still produces one outcome per record and still saves
exactly once. -/
theorem claim_C3_theorem (aF : String → ℚ → Option String) (maps : List Record)
    (xl : ExcelBe) (wd : WordBe) (hx : xl.openFail = false) (hw : wd.openFail = false)
    (i : Nat) (hi : i < maps.length)
    (hmiss : wd.write (maps[i].bookmark) = WriteBe.missing) :
    (outcomesOf (runApply aF maps xl wd))[i]?
      = some (Outcome.errorWriting (maps[i].bookmark) (comMissingMsg (maps[i].bookmark)))
    ∧ (outcomesOf (runApply aF maps xl wd)).length = maps.length
    ∧ (runApply aF maps xl wd).count Ev.save = 1 := by
  have ho := outcomes_runApply aF maps xl wd hx hw
  refine ⟨?_, ?_, count_save_runApply aF maps xl wd hx hw⟩
  · rw [ho, List.getElem?_map, List.getElem?_eq_getElem hi]
    simp [applyRecord, hmiss]
  · rw [ho, List.length_map]

/-- C3 (witness): concrete single-record run with a missing bookmark. -/
theorem claim_C3_witness :
    (outcomesOf (runApply (fun _ _ => Option.none) [⟨"S1", "A1", "B1", Option.none⟩]
        ⟨false, fun _ _ => ReadRes.ok (PVal.rat 100)⟩ ⟨false, fun _ => WriteBe.missing⟩))[0]?
      = some (Outcome.errorWriting "B1" (comMissingMsg "B1"))
    ∧ (runApply (fun _ _ => Option.none) [⟨"S1", "A1", "B1", Option.none⟩]
        ⟨false, fun _ _ => ReadRes.ok (PVal.rat 100)⟩
        ⟨false, fun _ => WriteBe.missing⟩).count Ev.save = 1 := by
  have h := claim_C3_theorem (fun _ _ => Option.none) [⟨"S1", "A1", "B1", Option.none⟩]
    ⟨false, fun _ _ => ReadRes.ok (PVal.rat 100)⟩ ⟨false, fun _ => WriteBe.missing⟩
    rfl rfl 0 (by decide) rfl
  exact ⟨h.1, h.2.2⟩

/-- C4: a manual mapping tuple whose length is neither 3 nor 4 makes the run
abort with `InvalidMappingError` before any collaborator event occurs (the
trace is empty). -/
theorem claim_C4_theorem (aF : String → ℚ → Option String) (ms : List (List String))
    (xl : ExcelBe) (wd : WordBe) (m : List String)
    (hm : m ∈ ms) (h3 : m.length ≠ 3) (h4 : m.length ≠ 4) :
    ∃ e : InvalidMappingError,
      mainRun aF (MappingSource.manual ms) xl wd = ([], some e) := by
  obtain ⟨e, he⟩ := parseManual_error_of_bad ms m hm h3 h4
  exact ⟨e, by simp [mainRun, he]⟩

/-- C4 (witness): a length-2 mapping tuple aborts the run fatally with no
collaborator events. -/
theorem claim_C4_witness :
    ∃ e : InvalidMappingError,
      mainRun (fun _ _ => Option.none) (MappingSource.manual [["a", "b"]])
        ⟨false, fun _ _ => ReadRes.err⟩ ⟨false, fun _ => WriteBe.existsOk⟩
      = ([], some e) :=
  claim_C4_theorem (fun _ _ => Option.none) [["a", "b"]]
    ⟨false, fun _ _ => ReadRes.err⟩ ⟨false, fun _ => WriteBe.existsOk⟩
    ["a", "b"] (by decide) (by decide) (by decide)

/-- C5 (counterexample): a row whose anchor cell is blank — pandas presents
it as NaN — is NOT dropped: `str(nan or '')` is `"nan"`, which is non-empty,
so the loader retains the row with the literal bookmark "nan", contradicting
the claimed drop of rows with an empty anchor field. -/
theorem claim_C5_counterexample :
    specRetains ⟨PVal.str "S1", PVal.str "A1", PVal.nan, PVal.none⟩ = false
    ∧ load_mappings_from_excel [⟨PVal.str "S1", PVal.str "A1", PVal.nan, PVal.none⟩]
        = [⟨"S1", "A1", "nan", Option.none⟩] := by
  decide

/-- C5 (amended): the loader retains a row exactly when all three coerced
fields `str(field or '').strip()` are non-empty — for text fields this is
"non-empty after trimming", but blank (NaN) cells coerce to the non-empty
string "nan" and are retained — keeps the retained rows in input order, and
drops the rest silently. -/
theorem claim_C5_theorem (rows : List Row) :
    load_mappings_from_excel rows = (rows.filter keepsRow).map rowRecord := by
  induction rows with
  | nil => rfl
  | cons r t ih =>
      simp only [load_mappings_from_excel, List.filter_cons]
      by_cases h : keepsRow r = true
      · have hp : fieldStr r.sheetName ≠ "" ∧ fieldStr r.cell ≠ "" ∧ fieldStr r.bookmark ≠ "" := by
          simpa [keepsRow, and_assoc] using h
        rw [if_pos hp, h, ih]
        simp [rowRecord]
      · have hp : ¬(fieldStr r.sheetName ≠ "" ∧ fieldStr r.cell ≠ "" ∧ fieldStr r.bookmark ≠ "") := by
          simpa [keepsRow, and_assoc] using h
        rw [if_neg hp, ih]
        simp [h]

/-- C5 (witness): the amended loader characterisation at a concrete table. -/
theorem claim_C5_witness :
    load_mappings_from_excel [⟨PVal.str "S1", PVal.str "A1", PVal.str "B1", PVal.none⟩]
      = (([⟨PVal.str "S1", PVal.str "A1", PVal.str "B1", PVal.none⟩] : List Row).filter
          keepsRow).map rowRecord :=
  claim_C5_theorem [⟨PVal.str "S1", PVal.str "A1", PVal.str "B1", PVal.none⟩]

/-- C6: an absent (None) or empty-string raw value makes the words formatter
return exactly "(Not Available)". -/
theorem claim_C6_theorem :
    format_number_as_words PVal.none = "(Not Available)"
    ∧ format_number_as_words (PVal.str "") = "(Not Available)" := by
  decide

/-- C7: a non-empty string raw value that does not coerce to a number makes
the words formatter return "(" ++ raw ++ ")", and the formatter returns a
non-empty string on every input. -/
theorem claim_C7_theorem :
    (∀ s : String, s ≠ "" → pyFloatOfString s = Option.none →
        format_number_as_words (PVal.str s) = "(" ++ s ++ ")")
    ∧ (∀ v : PVal, format_number_as_words v ≠ "") := by
  constructor
  · intro s hs hp
    have hne : ¬(PVal.str s = PVal.none ∨ PVal.str s = PVal.str "") := by
      simp [hs]
    unfold format_number_as_words
    rw [if_neg hne]
    have : pyFloat (PVal.str s) = Option.none := by simp [pyFloat, hp]
    rw [this]
    rfl
  · intro v
    unfold format_number_as_words
    split
    · decide
    · split
      · exact paren_ne_empty _
      · exact paren_ne_empty _

/-- C7 (witness): "abc" falls back to "(abc)", and the formatter output at
None is non-empty. -/
theorem claim_C7_witness :
    format_number_as_words (PVal.str "abc") = "(abc)"
    ∧ format_number_as_words PVal.none ≠ "" :=
  ⟨claim_C7_theorem.1 "abc" (by decide) (by decide), claim_C7_theorem.2 PVal.none⟩

/-- C8: for every format-template behaviour and every format specifier, the
numeric formatter maps an absent (None) or empty-string raw value to the
fixed placeholder "None", which differs from what a real zero formats to
under the default format. -/
theorem claim_C8_theorem (aF : String → ℚ → Option String) (fmt : Option String) :
    format_number aF PVal.none fmt = "None"
    ∧ format_number aF (PVal.str "") fmt = "None"
    ∧ format_number aF (PVal.rat 0) Option.none = "0"
    ∧ format_number aF PVal.none fmt ≠ format_number aF (PVal.rat 0) Option.none := by
  have h1 : format_number aF PVal.none fmt = "None" := rfl
  have h2 : format_number aF (PVal.str "") fmt = "None" := rfl
  have h3 : format_number aF (PVal.rat 0) Option.none = "0" := rfl
  exact ⟨h1, h2, h3, by rw [h1, h3]; decide⟩

/-- C8 (witness): concrete instance of the absent-placeholder property. -/
theorem claim_C8_witness :
    format_number (fun _ _ => Option.none) PVal.none (some "anyspec") = "None"
    ∧ format_number (fun _ _ => Option.none) PVal.none (some "anyspec")
        ≠ format_number (fun _ _ => Option.none) (PVal.rat 0) Option.none := by
  have h := claim_C8_theorem (fun _ _ => Option.none) (some "anyspec")
  exact ⟨h.1, h.2.2.2⟩

/-- C9: every run trace obeys the session discipline: the spreadsheet
session is opened at most once, all reads happen while it (and only it) is
open, the document session opens only after the spreadsheet session is
closed, the two are never open simultaneously, and both are released on
every exit path. -/
theorem claim_C9_theorem (aF : String → ℚ → Option String) (maps : List Record)
    (xl : ExcelBe) (wd : WordBe) :
    sessionCheck (runApply aF maps xl wd) = true := by
  by_cases hx : xl.openFail
  · simp [runApply, hx, sessionCheck, sessStep]
  · by_cases hw : wd.openFail
    · simp [runApply, hx, hw, sessionCheck, List.foldl_append,
        foldl_sessStep_readEvents, sessStep]
    · simp [runApply, hx, hw, sessionCheck, List.foldl_append,
        foldl_sessStep_readEvents, foldl_sessStep_outcomeMap, sessStep]

/-- C9 (witness): the session discipline holds on a concrete run whose
document open fails. -/
theorem claim_C9_witness :
    sessionCheck (runApply (fun _ _ => Option.none) [⟨"S1", "A1", "B1", Option.none⟩]
      ⟨false, fun _ _ => ReadRes.err⟩ ⟨true, fun _ => WriteBe.existsOk⟩) = true :=
  claim_C9_theorem (fun _ _ => Option.none) [⟨"S1", "A1", "B1", Option.none⟩]
    ⟨false, fun _ _ => ReadRes.err⟩ ⟨true, fun _ => WriteBe.existsOk⟩

/-- C10: when the raw value coerces to a number and the non-empty format
template fails to apply, the numeric formatter does not propagate the error:
it returns the raw value's Python string form. -/
theorem claim_C10_theorem (aF : String → ℚ → Option String) (v : PVal) (q : ℚ)
    (f : String) (habs : ¬(v = PVal.none ∨ v = PVal.str ""))
    (hq : pyFloat v = some q) (hf : f ≠ "") (hfail : aF f q = Option.none) :
    format_number aF v (some f) = pyStr v := by
  unfold format_number
  rw [if_neg habs, hq]
  simp [hf, hfail]

/-- C10 (witness): a failing template on the float 123456.0 yields
"123456.0". -/
theorem claim_C10_witness :
    format_number (fun _ _ => Option.none) (PVal.rat 123456) (some "badspec")
      = "123456.0" := by
  have h := claim_C10_theorem (fun _ _ => Option.none) (PVal.rat 123456) 123456
    "badspec" (by decide) rfl (by decide) rfl
  exact h.trans (by decide)
